import Mathlib

/-!
Shallow embedding of the logging middleware core
(`src/LoggingMiddleware/src/logger.js` and
`node_modules/@your-roll-number/logging-middleware/src/auth.js`).

Strings are Lean `String`s; JavaScript `toLowerCase`/`trim` coincide with
`String.toLower`/`String.trim` on the ASCII inputs this code handles.
Network effects are abstracted as explicit outcome values supplied per
attempt, and the shipper returns a trace recording the payloads POSTed and
the backoff delays slept, so that counting attempts and delays is a
statement about the embedding.
-/

/-- JavaScript `String.prototype.toLowerCase` restricted to the ASCII range
this code handles: lowercase each character. -/
def jsToLowerCase (s : String) : String := String.mk (s.data.map Char.toLower)

/-- JavaScript `String.prototype.trim` on the ASCII range: drop whitespace
from both ends. -/
def jsTrim (s : String) : String :=
  String.mk (((s.data.dropWhile Char.isWhitespace).reverse.dropWhile
    Char.isWhitespace).reverse)

/-- Validation failure categories of `Logger.validateLogParams`. -/
inductive ValidationError where
  | InvalidStack
  | InvalidLevel
  | InvalidPackage
  | InvalidMessage
deriving DecidableEq

def ALLOWED_STACKS : List String := ["backend", "frontend"]

def ALLOWED_LEVELS : List String := ["debug", "info", "warn", "error", "fatal"]

def ALLOWED_BACKEND_PACKAGES : List String :=
  ["cache", "controller", "cron", "domain", "handler", "repository", "route", "service"]

def ALLOWED_COMMON_PACKAGES : List String := ["auth", "config", "middleware"]

/-- `Logger.validateLogParams(stack, level, packageName, message)`.
The JS typeof guard on `message` is vacuous here since `message` is a
`String`; the remaining checks follow the if-chain of the source in order. -/
def validateLogParams (stack level packageName message : String) :
    Except ValidationError Unit :=
  let lowerStack := jsToLowerCase stack
  let lowerLevel := jsToLowerCase level
  let lowerPackageName := jsToLowerCase packageName
  if !ALLOWED_STACKS.contains lowerStack then
    .error .InvalidStack
  else if !ALLOWED_LEVELS.contains lowerLevel then
    .error .InvalidLevel
  else if lowerStack == "backend" &&
      !(ALLOWED_BACKEND_PACKAGES.contains lowerPackageName ||
        ALLOWED_COMMON_PACKAGES.contains lowerPackageName) then
    .error .InvalidPackage
  else if lowerStack == "frontend" &&
      !ALLOWED_COMMON_PACKAGES.contains lowerPackageName then
    .error .InvalidPackage
  else if (jsTrim message).length = 0 then
    .error .InvalidMessage
  else if message.length > 48 then
    .error .InvalidMessage
  else
    .ok ()

/-- The stack-dependent package gate of `validateLogParams`: true when
neither of the two package checks throws. -/
def packageCheckPasses (stack packageName : String) : Bool :=
  !(jsToLowerCase stack == "backend" &&
    !(ALLOWED_BACKEND_PACKAGES.contains (jsToLowerCase packageName) ||
      ALLOWED_COMMON_PACKAGES.contains (jsToLowerCase packageName))) &&
  !(jsToLowerCase stack == "frontend" &&
    !ALLOWED_COMMON_PACKAGES.contains (jsToLowerCase packageName))

deriving instance DecidableEq for Except

/-- The parsed JSON body of a logging-endpoint response: the only field the
code ever looks at is `logID`, which may be absent. -/
structure LogResponse where
  logID : Option String
deriving DecidableEq

/-- What the transport produced for one POST to the logging endpoint:
a complete HTTP response (whose body may or may not parse as JSON), a
request error, or a timeout. `parsed = none` models a body that is not
valid JSON. -/
inductive TransportOutcome where
  | response (statusCode : Nat) (parsed : Option LogResponse)
  | networkError
  | timeout
deriving DecidableEq

/-- Errors surfaced by the shipper, mirroring the distinct `reject`/`throw`
sites of `logger.js`. -/
inductive ShipError where
  | validation (e : ValidationError)
  | authFailed
  | apiStatus (code : Nat)
  | parseFailed
  | requestFailed
  | requestTimeout
deriving DecidableEq

/-- `Logger.#makeLogApiCall` on a given transport outcome: the response
body is JSON-parsed first (parse failure rejects regardless of status),
then the promise resolves exactly when the status code is 200 or 201.
No field of the parsed body is inspected. -/
def makeLogApiCall (outcome : TransportOutcome) : Except ShipError LogResponse :=
  match outcome with
  | .networkError => .error .requestFailed
  | .timeout => .error .requestTimeout
  | .response statusCode parsed =>
    match parsed with
    | none => .error .parseFailed
    | some body =>
      if statusCode == 200 || statusCode == 201 then .ok body
      else .error (.apiStatus statusCode)

/-- The JSON payload POSTed to the logging endpoint. -/
structure LogData where
  stack : String
  level : String
  package : String
  message : String
deriving DecidableEq

/-- The `logData` object built in `#logWithRetry`: stack, level and package
are lowercased, the message is passed through verbatim. -/
def buildLogData (stack level packageName message : String) : LogData :=
  { stack := jsToLowerCase stack
    level := jsToLowerCase level
    package := jsToLowerCase packageName
    message := message }

/-- One pass through the `try` block of `#logWithRetry`: validate (a
validation error escapes into the catch block like any other), build the
payload, obtain a token (`!token` is falsy for a missing or empty token),
then make the API call. The second component records the payloads actually
POSTed during this pass (empty when validation or auth failed first). -/
def attemptOnce (auth : Nat → Option String)
    (transport : LogData → Nat → TransportOutcome)
    (stack level packageName message : String) (attempt : Nat) :
    Except ShipError LogResponse × List LogData :=
  match validateLogParams stack level packageName message with
  | .error e => (.error (.validation e), [])
  | .ok _ =>
    let logData := buildLogData stack level packageName message
    match auth attempt with
    | none => (.error .authFailed, [])
    | some token =>
      if token == "" then (.error .authFailed, [])
      else (makeLogApiCall (transport logData attempt), [logData])

/-- The observable trace of one `send`: final result, every payload POSTed
(one per attempt that reached the API call), and every backoff delay slept,
in order. -/
structure ShipTrace where
  result : Except ShipError LogResponse
  posts : List LogData
  delays : List Nat
deriving DecidableEq

/-- The recursion of `#logWithRetry`. The source recurses with
`attempt + 1` while `attempt < this.retries`; `fuel` is an upper bound on
the remaining recursion depth making the recursion structural. Called with
`fuel = retries - attempt` (as `logWithRetry` does), the zero-fuel branch
under the guard is unreachable, since `attempt < retries` forces
`retries - attempt > 0`. -/
def logWithRetryGo (retries : Nat) (auth : Nat → Option String)
    (transport : LogData → Nat → TransportOutcome)
    (stack level packageName message : String) (fuel attempt : Nat) : ShipTrace :=
  match attemptOnce auth transport stack level packageName message attempt with
  | (.ok r, ps) => ⟨.ok r, ps, []⟩
  | (.error e, ps) =>
    if attempt < retries then
      match fuel with
      | 0 => ⟨.error e, ps, []⟩
      | f + 1 =>
        let rest := logWithRetryGo retries auth transport stack level packageName
          message f (attempt + 1)
        ⟨rest.result, ps ++ rest.posts, 1000 * attempt :: rest.delays⟩
    else
      ⟨.error e, ps, []⟩

/-- `Logger.#logWithRetry(stack, level, packageName, message, attempt)`
with the retry ceiling `retries` of the instance, an abstract token provider
`auth` (outcome of `getAuthToken` on each attempt number) and abstract
transport. -/
def logWithRetry (retries : Nat) (auth : Nat → Option String)
    (transport : LogData → Nat → TransportOutcome)
    (stack level packageName message : String) (attempt : Nat) : ShipTrace :=
  logWithRetryGo retries auth transport stack level packageName message
    (retries - attempt) attempt

/-- `Logger.Log`: runs `#logWithRetry` starting at attempt 1 and absorbs
any error into `none`; the trace is returned alongside for observation. -/
def Log (retries : Nat) (auth : Nat → Option String)
    (transport : LogData → Nat → TransportOutcome)
    (stack level packageName message : String) : Option LogResponse × ShipTrace :=
  let t := logWithRetry retries auth transport stack level packageName message 1
  match t.result with
  | .ok r => (some r, t)
  | .error _ => (none, t)

/-- Constructor configuration: `none` models an absent property of the
`config` object. -/
structure LoggerConfig where
  timeout : Option Nat
  retries : Option Nat
deriving DecidableEq

/-- JavaScript `config.x || d` on a numeric option: an absent value and the
falsy number 0 both yield the default. -/
def jsFalsyOr (v : Option Nat) (d : Nat) : Nat :=
  match v with
  | none => d
  | some n => if n = 0 then d else n

/-- The state set up by the `Logger` constructor. -/
structure Logger where
  timeout : Nat
  retries : Nat
deriving DecidableEq

/-- `new Logger(config)`: `config.timeout || 5000` and `config.retries || 3`. -/
def Logger.make (config : LoggerConfig) : Logger :=
  { timeout := jsFalsyOr config.timeout 5000
    retries := jsFalsyOr config.retries 3 }

/-- The module-level mutable state of `auth.js`: `currentToken` (initially
`null`, modelled `none`) and `tokenExpiryTime` (a Unix timestamp in
seconds, initially 0). -/
structure AuthState where
  currentToken : Option String
  tokenExpiryTime : Nat
deriving DecidableEq

/-- The six environment variables of the credential payload; `none` models
an unset variable and the empty string a set-but-empty (falsy) one. -/
structure AuthEnvVars where
  email : Option String
  name : Option String
  rollNo : Option String
  accessCode : Option String
  clientID : Option String
  clientSecret : Option String
deriving DecidableEq

/-- JavaScript truthiness of an optional string: present and non-empty. -/
def jsTruthyStr (v : Option String) : Bool :=
  match v with
  | none => false
  | some s => !(s == "")

/-- The `for (const key in payload) if (!payload[key]) throw` loop: every
credential field must be truthy. -/
def AuthEnvVars.allPresent (v : AuthEnvVars) : Bool :=
  jsTruthyStr v.email && jsTruthyStr v.name && jsTruthyStr v.rollNo &&
  jsTruthyStr v.accessCode && jsTruthyStr v.clientID && jsTruthyStr v.clientSecret

/-- The parsed JSON body of an authentication response; the code reads
`access_token` and `expires_in` (absent fields modelled `none`). -/
structure AuthBody where
  access_token : Option String
  expires_in : Option Nat
deriving DecidableEq

/-- Outcome of the authentication POST, analogous to `TransportOutcome`. -/
inductive AuthExchangeOutcome where
  | response (statusCode : Nat) (parsed : Option AuthBody)
  | networkError
  | timeout
deriving DecidableEq

/-- Environment a `getAuthToken` call runs in: the credential variables and
what the network exchange would produce if performed. -/
structure AuthEnv where
  vars : AuthEnvVars
  exchange : AuthExchangeOutcome
deriving DecidableEq

/-- Failure categories of `getAuthToken`, mirroring its distinct
`throw`/`reject` sites. -/
inductive AuthError where
  | missingCredentials
  | statusError (code : Nat)
  | parseFailed
  | requestFailed
  | requestTimeout
  | malformedResponse
deriving DecidableEq

/-- Result of one `getAuthToken` call: the module state afterwards, the
returned token or error, and how many network exchanges were performed. -/
structure AuthCallResult where
  state : AuthState
  result : Except AuthError String
  networkCalls : Nat
deriving DecidableEq

/-- The fetch path of `getAuthToken` (everything inside its `try`): fail
fast on a missing credential before any network attempt, otherwise perform
the exchange; the body is JSON-parsed first, then the 200/201 status check
runs, then `tokenResponse.access_token` and `tokenResponse.expires_in`
must both be truthy (non-empty, non-zero) for the cache to be replaced. -/
def fetchNewToken (st : AuthState) (env : AuthEnv) : AuthCallResult :=
  if !env.vars.allPresent then ⟨st, .error .missingCredentials, 0⟩
  else
    match env.exchange with
    | .networkError => ⟨st, .error .requestFailed, 1⟩
    | .timeout => ⟨st, .error .requestTimeout, 1⟩
    | .response _ none => ⟨st, .error .parseFailed, 1⟩
    | .response statusCode (some body) =>
      if statusCode == 200 || statusCode == 201 then
        match body.access_token, body.expires_in with
        | some token, some expiry =>
          if !(token == "") && !(expiry == 0) then
            ⟨⟨some token, expiry⟩, .ok token, 1⟩
          else ⟨st, .error .malformedResponse, 1⟩
        | _, _ => ⟨st, .error .malformedResponse, 1⟩
      else ⟨st, .error (.statusError statusCode), 1⟩

/-- `getAuthToken()` at time `now` (Unix seconds): return the cached token
when it is truthy and `tokenExpiryTime > now + 60`, otherwise fetch. -/
def getAuthToken (st : AuthState) (now : Nat) (env : AuthEnv) : AuthCallResult :=
  match st.currentToken with
  | some token =>
    if token == "" then fetchNewToken st env
    else if st.tokenExpiryTime > now + 60 then ⟨st, .ok token, 0⟩
    else fetchNewToken st env
  | none => fetchNewToken st env

/-- With all credential variables present, the fetch path performs exactly
one network exchange, whatever its outcome. -/
lemma fetchNewToken_calls (st : AuthState) (env : AuthEnv)
    (henv : env.vars.allPresent = true) :
    (fetchNewToken st env).networkCalls = 1 := by
  rcases env with ⟨vars, exch⟩
  simp only [fetchNewToken, henv, Bool.not_true, Bool.false_eq_true, if_false]
  cases exch with
  | networkError => rfl
  | timeout => rfl
  | response statusCode parsed =>
    cases parsed with
    | none => rfl
    | some body =>
      rcases body with ⟨token, expiry⟩
      cases token <;> cases expiry <;> simp only <;> split <;> try rfl
      all_goals (split <;> rfl)

/-- If the fetch path fails, the cached state is returned untouched. -/
lemma fetchNewToken_error_state (st : AuthState) (env : AuthEnv) (e : AuthError)
    (he : (fetchNewToken st env).result = .error e) :
    (fetchNewToken st env).state = st := by
  rcases env with ⟨vars, exch⟩
  cases hvp : vars.allPresent with
  | false => simp [fetchNewToken, hvp]
  | true =>
    simp only [fetchNewToken, hvp, Bool.not_true, Bool.false_eq_true, if_false] at he ⊢
    cases exch with
    | networkError => rfl
    | timeout => rfl
    | response statusCode parsed =>
      cases parsed with
      | none => rfl
      | some body =>
        rcases body with ⟨token, expiry⟩
        by_cases hsc : (statusCode == 200 || statusCode == 201) = true
        · simp only [hsc, if_true] at he ⊢
          cases token with
          | none => rfl
          | some t =>
            cases expiry with
            | none => rfl
            | some x =>
              simp only at he ⊢
              split at he
              · simp at he
              · split
                · simp_all
                · rfl
        · simp only [hsc] at he ⊢
          simp [Bool.not_eq_true] at hsc
          simp [hsc]

/-- Claim C5: `getAuthToken` returns the cached token with no network call
when a (truthy) cached token exists whose stored expiry is more than 60
seconds past `now`; when the cached token is absent or has 60 seconds or
less remaining (and the credential variables are configured), it performs
exactly one authentication exchange. -/
theorem C5_token_cache (st : AuthState) (now : Nat) (env : AuthEnv) :
    (∀ token, st.currentToken = some token → (token == "") = false →
      st.tokenExpiryTime > now + 60 →
      getAuthToken st now env = ⟨st, .ok token, 0⟩) ∧
    (env.vars.allPresent = true →
      (st.currentToken = none ∨ st.tokenExpiryTime ≤ now + 60) →
      (getAuthToken st now env).networkCalls = 1) := by
  constructor
  · intro token htok hne hexp
    simp [getAuthToken, htok, hne, hexp]
  · intro henv hmiss
    cases htok : st.currentToken with
    | none => simp [getAuthToken, htok, fetchNewToken_calls st env henv]
    | some token =>
      have hexp : st.tokenExpiryTime ≤ now + 60 := by
        rcases hmiss with h | h
        · rw [htok] at h; cases h
        · exact h
      simp only [getAuthToken, htok]
      split
      · exact fetchNewToken_calls st env henv
      · simp only [show ¬(st.tokenExpiryTime > now + 60) by omega, if_false]
        exact fetchNewToken_calls st env henv

/-- Claim C5 (witness): with a cached token expiring at 1000 and now = 900
the cached token is returned with zero network calls, while an empty cache
performs one exchange. -/
theorem C5_token_cache_witness :
    getAuthToken ⟨some "tok", 1000⟩ 900
        ⟨⟨some "e", some "n", some "r", some "a", some "c", some "s"⟩,
          .networkError⟩ = ⟨⟨some "tok", 1000⟩, .ok "tok", 0⟩ ∧
    (getAuthToken ⟨none, 0⟩ 900
        ⟨⟨some "e", some "n", some "r", some "a", some "c", some "s"⟩,
          .networkError⟩).networkCalls = 1 :=
  ⟨(C5_token_cache ⟨some "tok", 1000⟩ 900 _).1 "tok" rfl (by decide) (by decide),
   (C5_token_cache ⟨none, 0⟩ 900 _).2 (by decide) (Or.inl rfl)⟩

/-- Claim C9: when `getAuthToken` fails with any error (missing
credentials, network error, timeout, non-2xx status, unparseable or
malformed response), the cached credential state is left exactly as it
was: both the stored token and the stored expiry are unchanged. -/
theorem C9_failure_preserves_cache (st : AuthState) (now : Nat) (env : AuthEnv)
    (e : AuthError) (he : (getAuthToken st now env).result = .error e) :
    (getAuthToken st now env).state = st := by
  rcases st with ⟨ctok, texp⟩
  cases ctok with
  | none =>
    simp only [getAuthToken] at he ⊢
    exact fetchNewToken_error_state _ env e he
  | some token =>
    simp only [getAuthToken] at he ⊢
    by_cases hemp : (token == "") = true
    · rw [if_pos hemp] at he ⊢
      exact fetchNewToken_error_state _ env e he
    · rw [if_neg hemp] at he ⊢
      by_cases hexp : texp > now + 60
      · rw [if_pos hexp] at he
        simp at he
      · rw [if_neg hexp] at he ⊢
        exact fetchNewToken_error_state _ env e he

/-- Claim C9 (witness): an expired cache plus a failing network exchange
leaves the stored token and expiry untouched. -/
theorem C9_failure_preserves_cache_witness :
    (getAuthToken ⟨some "old", 50⟩ 100
        ⟨⟨some "e", some "n", some "r", some "a", some "c", some "s"⟩,
          .networkError⟩).state = ⟨some "old", 50⟩ :=
  C9_failure_preserves_cache ⟨some "old", 50⟩ 100
    ⟨⟨some "e", some "n", some "r", some "a", some "c", some "s"⟩, .networkError⟩
    .requestFailed (by decide)

/-- A validated attempt with a usable token whose API call fails produces
an error result after POSTing exactly the built payload. -/
lemma attemptOnce_error_of_fail (auth : Nat → Option String)
    (transport : LogData → Nat → TransportOutcome)
    (stack level packageName message : String) (n : Nat) (token : String)
    (hv : validateLogParams stack level packageName message = .ok ())
    (htok : auth n = some token) (hne : (token == "") = false)
    (hf : ∀ body,
      makeLogApiCall (transport (buildLogData stack level packageName message) n) ≠
        .ok body) :
    ∃ e, attemptOnce auth transport stack level packageName message n =
      (.error e, [buildLogData stack level packageName message]) := by
  simp only [attemptOnce, hv, htok, hne, Bool.false_eq_true, if_false]
  cases h : makeLogApiCall (transport (buildLogData stack level packageName message) n) with
  | ok body => exact absurd h (hf body)
  | error e => exact ⟨e, rfl⟩

/-- A validated attempt with a usable token whose API call succeeds
returns its body after POSTing exactly the built payload. -/
lemma attemptOnce_ok_of_succ (auth : Nat → Option String)
    (transport : LogData → Nat → TransportOutcome)
    (stack level packageName message : String) (n : Nat) (token : String)
    (body : LogResponse)
    (hv : validateLogParams stack level packageName message = .ok ())
    (htok : auth n = some token) (hne : (token == "") = false)
    (hs : makeLogApiCall (transport (buildLogData stack level packageName message) n) =
      .ok body) :
    attemptOnce auth transport stack level packageName message n =
      (.ok body, [buildLogData stack level packageName message]) := by
  simp only [attemptOnce, hv, htok, hne, Bool.false_eq_true, if_false, hs]

/-- One-step unfolding: a successful attempt stops the loop. -/
lemma logWithRetryGo_step_ok (retries : Nat) (auth : Nat → Option String)
    (transport : LogData → Nat → TransportOutcome)
    (stack level packageName message : String) (fuel attempt : Nat)
    (r : LogResponse) (ps : List LogData)
    (h : attemptOnce auth transport stack level packageName message attempt =
      (.ok r, ps)) :
    logWithRetryGo retries auth transport stack level packageName message
      fuel attempt = ⟨.ok r, ps, []⟩ := by
  rw [logWithRetryGo.eq_def, h]

/-- One-step unfolding: a failed attempt with the ceiling reached stops the
loop with that error. -/
lemma logWithRetryGo_stop (retries : Nat) (auth : Nat → Option String)
    (transport : LogData → Nat → TransportOutcome)
    (stack level packageName message : String) (fuel attempt : Nat)
    (e : ShipError) (ps : List LogData)
    (h : attemptOnce auth transport stack level packageName message attempt =
      (.error e, ps))
    (hnl : ¬(attempt < retries)) :
    logWithRetryGo retries auth transport stack level packageName message
      fuel attempt = ⟨.error e, ps, []⟩ := by
  rw [logWithRetryGo.eq_def, h]
  simp [hnl]

/-- One-step unfolding: a failed attempt below the ceiling recurses after
recording a backoff delay of `1000 * attempt`. -/
lemma logWithRetryGo_step_error (retries : Nat) (auth : Nat → Option String)
    (transport : LogData → Nat → TransportOutcome)
    (stack level packageName message : String) (f attempt : Nat)
    (e : ShipError) (ps : List LogData)
    (h : attemptOnce auth transport stack level packageName message attempt =
      (.error e, ps))
    (hlt : attempt < retries) :
    logWithRetryGo retries auth transport stack level packageName message
        (f + 1) attempt =
      ⟨(logWithRetryGo retries auth transport stack level packageName message
          f (attempt + 1)).result,
        ps ++ (logWithRetryGo retries auth transport stack level packageName message
          f (attempt + 1)).posts,
        1000 * attempt :: (logWithRetryGo retries auth transport stack level
          packageName message f (attempt + 1)).delays⟩ := by
  rw [logWithRetryGo.eq_def, h]
  simp [hlt]

/-- When every attempt fails (valid event, tokens always available, every
API call failing), the loop makes one POST per attempt, `fuel + 1` in
total, and ends in an error. -/
lemma logWithRetryGo_all_fail (retries : Nat) (auth : Nat → Option String)
    (transport : LogData → Nat → TransportOutcome)
    (stack level packageName message : String)
    (hv : validateLogParams stack level packageName message = .ok ())
    (ha : ∀ n, ∃ token, auth n = some token ∧ (token == "") = false)
    (hf : ∀ d n body, makeLogApiCall (transport d n) ≠ .ok body) :
    ∀ fuel attempt, attempt + fuel = retries →
      (logWithRetryGo retries auth transport stack level packageName message
          fuel attempt).posts.length = fuel + 1 ∧
      ∃ e, (logWithRetryGo retries auth transport stack level packageName message
          fuel attempt).result = .error e := by
  intro fuel
  induction fuel with
  | zero =>
    intro attempt hsum
    obtain ⟨token, htok, hne⟩ := ha attempt
    obtain ⟨e, he⟩ := attemptOnce_error_of_fail auth transport stack level packageName
      message attempt token hv htok hne (hf _ attempt)
    have hnl : ¬(attempt < retries) := by omega
    rw [logWithRetryGo_stop retries auth transport stack level packageName message
      0 attempt e _ he hnl]
    simp
  | succ f ih =>
    intro attempt hsum
    obtain ⟨token, htok, hne⟩ := ha attempt
    obtain ⟨e, he⟩ := attemptOnce_error_of_fail auth transport stack level packageName
      message attempt token hv htok hne (hf _ attempt)
    have hlt : attempt < retries := by omega
    obtain ⟨hlen, e2, he2⟩ := ih (attempt + 1) (by omega)
    rw [logWithRetryGo_step_error retries auth transport stack level packageName
      message f attempt e _ he hlt]
    refine ⟨?_, e2, he2⟩
    simp [hlen]

/-- Claim C3: with ceiling 3, a valid event, tokens always available and a
transport failing on every attempt, `send` makes exactly 3 POST attempts,
ends in an error, and `Log` absorbs it into the terminal failure indicator
`none` rather than letting any exception escape. -/
theorem C3_exhausts_after_three (stack level packageName message : String)
    (auth : Nat → Option String) (transport : LogData → Nat → TransportOutcome)
    (hv : validateLogParams stack level packageName message = .ok ())
    (ha : ∀ n, ∃ token, auth n = some token ∧ (token == "") = false)
    (hf : ∀ d n body, makeLogApiCall (transport d n) ≠ .ok body) :
    (logWithRetry 3 auth transport stack level packageName message 1).posts.length = 3 ∧
    (∃ e, (logWithRetry 3 auth transport stack level packageName message 1).result =
      .error e) ∧
    (Log 3 auth transport stack level packageName message).1 = none := by
  obtain ⟨hlen, e, he⟩ := logWithRetryGo_all_fail 3 auth transport stack level
    packageName message hv ha hf 2 1 (by omega)
  have hgo : logWithRetry 3 auth transport stack level packageName message 1 =
      logWithRetryGo 3 auth transport stack level packageName message 2 1 := rfl
  refine ⟨by rw [hgo]; exact hlen, ⟨e, by rw [hgo]; exact he⟩, ?_⟩
  simp only [Log, hgo, he]

/-- Claim C3 (witness): concrete instance with a transport that always
reports a network error. -/
theorem C3_exhausts_after_three_witness :
    (logWithRetry 3 (fun _ => some "tok") (fun _ _ => TransportOutcome.networkError)
        "backend" "info" "auth" "hi" 1).posts.length = 3 ∧
    (∃ e, (logWithRetry 3 (fun _ => some "tok")
        (fun _ _ => TransportOutcome.networkError)
        "backend" "info" "auth" "hi" 1).result = .error e) ∧
    (Log 3 (fun _ => some "tok") (fun _ _ => TransportOutcome.networkError)
        "backend" "info" "auth" "hi").1 = none :=
  C3_exhausts_after_three "backend" "info" "auth" "hi" _ _ (by decide)
    (fun _ => ⟨"tok", rfl, by decide⟩)
    (fun d n body => by simp [makeLogApiCall])

/-- One-step unfolding: with no fuel left a failed attempt stops the loop
whether or not the ceiling was reached. -/
lemma logWithRetryGo_zero_error (retries : Nat) (auth : Nat → Option String)
    (transport : LogData → Nat → TransportOutcome)
    (stack level packageName message : String) (attempt : Nat)
    (e : ShipError) (ps : List LogData)
    (h : attemptOnce auth transport stack level packageName message attempt =
      (.error e, ps)) :
    logWithRetryGo retries auth transport stack level packageName message
      0 attempt = ⟨.error e, ps, []⟩ := by
  rw [logWithRetryGo.eq_def, h]
  split <;> simp_all

/-- Whatever one attempt POSTs is the payload built by `buildLogData`. -/
lemma attemptOnce_posts (auth : Nat → Option String)
    (transport : LogData → Nat → TransportOutcome)
    (stack level packageName message : String) (attempt : Nat) (d : LogData)
    (hd : d ∈ (attemptOnce auth transport stack level packageName message attempt).2) :
    d = buildLogData stack level packageName message := by
  unfold attemptOnce at hd
  split at hd
  · simp at hd
  · split at hd
    · simp at hd
    · split at hd
      · simp at hd
      · simp at hd
        exact hd

/-- Whatever the whole loop POSTs is the payload built by `buildLogData`. -/
lemma logWithRetryGo_posts (retries : Nat) (auth : Nat → Option String)
    (transport : LogData → Nat → TransportOutcome)
    (stack level packageName message : String) :
    ∀ fuel attempt d,
      d ∈ (logWithRetryGo retries auth transport stack level packageName message
        fuel attempt).posts →
      d = buildLogData stack level packageName message := by
  intro fuel
  induction fuel with
  | zero =>
    intro attempt d hd
    rcases h : attemptOnce auth transport stack level packageName message attempt
      with ⟨res, ps⟩
    cases res with
    | ok r =>
      rw [logWithRetryGo_step_ok retries auth transport stack level packageName
        message 0 attempt r ps h] at hd
      exact attemptOnce_posts auth transport stack level packageName message attempt d
        (by rw [h]; exact hd)
    | error e =>
      rw [logWithRetryGo_zero_error retries auth transport stack level packageName
        message attempt e ps h] at hd
      exact attemptOnce_posts auth transport stack level packageName message attempt d
        (by rw [h]; exact hd)
  | succ f ih =>
    intro attempt d hd
    rcases h : attemptOnce auth transport stack level packageName message attempt
      with ⟨res, ps⟩
    cases res with
    | ok r =>
      rw [logWithRetryGo_step_ok retries auth transport stack level packageName
        message (f + 1) attempt r ps h] at hd
      exact attemptOnce_posts auth transport stack level packageName message attempt d
        (by rw [h]; exact hd)
    | error e =>
      by_cases hlt : attempt < retries
      · rw [logWithRetryGo_step_error retries auth transport stack level packageName
          message f attempt e ps h hlt] at hd
        simp only [List.mem_append] at hd
        rcases hd with hd | hd
        · exact attemptOnce_posts auth transport stack level packageName message
            attempt d (by rw [h]; exact hd)
        · exact ih (attempt + 1) d hd
      · rw [logWithRetryGo_stop retries auth transport stack level packageName
          message (f + 1) attempt e ps h hlt] at hd
        exact attemptOnce_posts auth transport stack level packageName message attempt d
          (by rw [h]; exact hd)

/-- Claim C4 (counterexample): the event
(stack "backend", level "info", package "auth", message "Hi") passes
validation, yet the transmitted payload carries the message "Hi"
verbatim — not lowercase-normalized — so not all four transmitted fields
are lowercase. -/
theorem C4_message_not_lowercased :
    validateLogParams "backend" "info" "auth" "Hi" = .ok () ∧
    (logWithRetry 3 (fun _ => some "tok")
        (fun _ _ => TransportOutcome.response 201 (some ⟨some "id"⟩))
        "backend" "info" "auth" "Hi" 1).posts =
      [⟨"backend", "info", "auth", "Hi"⟩] ∧
    (⟨"backend", "info", "auth", "Hi"⟩ : LogData).message ≠ jsToLowerCase "Hi" := by
  decide

/-- Claim C4 (amended): every payload POSTed during a send is exactly
`buildLogData` of the event — `stack`, `level` and `package` are
lowercase-normalized, while `message` is transmitted verbatim. -/
theorem C4_payload_normalization (retries : Nat) (auth : Nat → Option String)
    (transport : LogData → Nat → TransportOutcome)
    (stack level packageName message : String) (d : LogData)
    (hd : d ∈ (logWithRetry retries auth transport stack level packageName
      message 1).posts) :
    d.stack = jsToLowerCase stack ∧ d.level = jsToLowerCase level ∧
    d.package = jsToLowerCase packageName ∧ d.message = message := by
  have hbuild := logWithRetryGo_posts retries auth transport stack level packageName
    message (retries - 1) 1 d hd
  rw [hbuild]
  exact ⟨rfl, rfl, rfl, rfl⟩

/-- Claim C4 (witness): the concrete payload of a first-attempt success. -/
theorem C4_payload_normalization_witness :
    (⟨"backend", "info", "auth", "Hi"⟩ : LogData).stack = jsToLowerCase "backend" ∧
    (⟨"backend", "info", "auth", "Hi"⟩ : LogData).level = jsToLowerCase "info" ∧
    (⟨"backend", "info", "auth", "Hi"⟩ : LogData).package = jsToLowerCase "auth" ∧
    (⟨"backend", "info", "auth", "Hi"⟩ : LogData).message = "Hi" :=
  C4_payload_normalization 3 (fun _ => some "tok")
    (fun _ _ => TransportOutcome.response 201 (some ⟨some "id"⟩))
    "backend" "info" "auth" "Hi" ⟨"backend", "info", "auth", "Hi"⟩ (by decide)

/-- The delays of any run form an initial segment of the linear schedule
`1000 * attempt, 1000 * (attempt + 1), ...`: after a failure on attempt
`n` (below the ceiling) the wait before attempt `n + 1` is `1000 * n`. -/
lemma logWithRetryGo_delays_schedule (retries : Nat) (auth : Nat → Option String)
    (transport : LogData → Nat → TransportOutcome)
    (stack level packageName message : String) :
    ∀ fuel attempt, ∃ k,
      (logWithRetryGo retries auth transport stack level packageName message
        fuel attempt).delays =
      (List.range k).map (fun i => 1000 * (attempt + i)) := by
  intro fuel
  induction fuel with
  | zero =>
    intro attempt
    rcases h : attemptOnce auth transport stack level packageName message attempt
      with ⟨res, ps⟩
    cases res with
    | ok r =>
      exact ⟨0, by rw [logWithRetryGo_step_ok retries auth transport stack level
        packageName message 0 attempt r ps h]; simp⟩
    | error e =>
      exact ⟨0, by rw [logWithRetryGo_zero_error retries auth transport stack level
        packageName message attempt e ps h]; simp⟩
  | succ f ih =>
    intro attempt
    rcases h : attemptOnce auth transport stack level packageName message attempt
      with ⟨res, ps⟩
    cases res with
    | ok r =>
      exact ⟨0, by rw [logWithRetryGo_step_ok retries auth transport stack level
        packageName message (f + 1) attempt r ps h]; simp⟩
    | error e =>
      by_cases hlt : attempt < retries
      · obtain ⟨k, hk⟩ := ih (attempt + 1)
        refine ⟨k + 1, ?_⟩
        rw [logWithRetryGo_step_error retries auth transport stack level packageName
          message f attempt e ps h hlt]
        show 1000 * attempt :: (logWithRetryGo retries auth transport stack level
          packageName message f (attempt + 1)).delays = _
        rw [hk, List.range_succ_eq_map, List.map_cons, List.map_map]
        refine congrArg₂ _ (by omega) ?_
        apply List.map_congr_left
        intro i _
        simp only [Function.comp_apply]
        omega
      · exact ⟨0, by rw [logWithRetryGo_stop retries auth transport stack level
          packageName message (f + 1) attempt e ps h hlt]; simp⟩

/-- Claim C6: the backoff schedule is linear (the delays recorded by any
run are `1000 * n` for the consecutive attempt numbers `n` they follow,
with no jitter), and in the particular scenario of ceiling 3 with a
transport failing on attempts 1 and 2 and succeeding on attempt 3, the
send succeeds and exactly the two delays 1000 ms and 2000 ms occur. -/
theorem C6_linear_backoff :
    (∀ (retries : Nat) (auth : Nat → Option String)
        (transport : LogData → Nat → TransportOutcome)
        (stack level packageName message : String) (fuel attempt : Nat),
      ∃ k, (logWithRetryGo retries auth transport stack level packageName message
          fuel attempt).delays =
        (List.range k).map (fun i => 1000 * (attempt + i))) ∧
    (∀ (stack level packageName message : String) (auth : Nat → Option String)
        (transport : LogData → Nat → TransportOutcome),
      validateLogParams stack level packageName message = .ok () →
      (∀ n, ∃ token, auth n = some token ∧ (token == "") = false) →
      (∀ body, makeLogApiCall
          (transport (buildLogData stack level packageName message) 1) ≠ .ok body) →
      (∀ body, makeLogApiCall
          (transport (buildLogData stack level packageName message) 2) ≠ .ok body) →
      (∃ body, makeLogApiCall
          (transport (buildLogData stack level packageName message) 3) = .ok body) →
      ∃ body,
        (logWithRetry 3 auth transport stack level packageName message 1).result =
          .ok body ∧
        (logWithRetry 3 auth transport stack level packageName message 1).delays =
          [1000 * 1, 1000 * 2]) := by
  constructor
  · exact fun retries auth transport stack level packageName message =>
      logWithRetryGo_delays_schedule retries auth transport stack level packageName
        message
  · intro stack level packageName message auth transport hv ha hf1 hf2 hs3
    obtain ⟨t1, ht1, hn1⟩ := ha 1
    obtain ⟨t2, ht2, hn2⟩ := ha 2
    obtain ⟨t3, ht3, hn3⟩ := ha 3
    obtain ⟨e1, h1⟩ := attemptOnce_error_of_fail auth transport stack level
      packageName message 1 t1 hv ht1 hn1 hf1
    obtain ⟨e2, h2⟩ := attemptOnce_error_of_fail auth transport stack level
      packageName message 2 t2 hv ht2 hn2 hf2
    obtain ⟨body, hb⟩ := hs3
    have h3 := attemptOnce_ok_of_succ auth transport stack level packageName
      message 3 t3 body hv ht3 hn3 hb
    have g0 := logWithRetryGo_step_ok 3 auth transport stack level packageName
      message 0 3 body _ h3
    have g1 := logWithRetryGo_step_error 3 auth transport stack level packageName
      message 0 2 e2 _ h2 (by omega)
    have g2 := logWithRetryGo_step_error 3 auth transport stack level packageName
      message 1 1 e1 _ h1 (by omega)
    have hr : logWithRetry 3 auth transport stack level packageName message 1 =
        logWithRetryGo 3 auth transport stack level packageName message 2 1 := rfl
    have hfull : logWithRetry 3 auth transport stack level packageName message 1 =
        ⟨.ok body,
          [buildLogData stack level packageName message,
            buildLogData stack level packageName message,
            buildLogData stack level packageName message],
          [1000 * 1, 1000 * 2]⟩ := by
      rw [hr, g2, g1, g0]
      rfl
    exact ⟨body, by rw [hfull], by rw [hfull]⟩

/-- Claim C6 (witness): a transport reporting network errors on attempts 1
and 2 and a 201 JSON response on attempt 3. -/
theorem C6_linear_backoff_witness :
    ∃ body,
      (logWithRetry 3 (fun _ => some "tok")
          (fun _ n => if 3 ≤ n then TransportOutcome.response 201 (some ⟨some "abc123"⟩)
            else TransportOutcome.networkError)
          "backend" "info" "auth" "hi" 1).result = .ok body ∧
      (logWithRetry 3 (fun _ => some "tok")
          (fun _ n => if 3 ≤ n then TransportOutcome.response 201 (some ⟨some "abc123"⟩)
            else TransportOutcome.networkError)
          "backend" "info" "auth" "hi" 1).delays = [1000 * 1, 1000 * 2] :=
  C6_linear_backoff.2 "backend" "info" "auth" "hi" (fun _ => some "tok") _
    (by decide) (fun _ => ⟨"tok", rfl, by decide⟩)
    (fun body h => by simp [makeLogApiCall] at h)
    (fun body h => by simp [makeLogApiCall] at h)
    ⟨⟨some "abc123"⟩, rfl⟩

/-- Claim C2 (counterexample): a response with HTTP status 200 whose body
is valid JSON but has no log identifier field is resolved as a success by
the API call, and `Log` returns it as a successful result on the first
attempt with no retry — it is not treated as a transient failure. -/
theorem C2_success_without_logID :
    makeLogApiCall (.response 200 (some ⟨none⟩)) = .ok ⟨none⟩ ∧
    Log 3 (fun _ => some "tok") (fun _ _ => .response 200 (some ⟨none⟩))
        "backend" "info" "auth" "hi" =
      (some ⟨none⟩, ⟨.ok ⟨none⟩, [⟨"backend", "info", "auth", "hi"⟩], []⟩) := by
  decide

/-- Claim C2 (amended): a send attempt is counted as a success if and only
if the logging endpoint returns HTTP status 200 or 201 and the response
body parses as JSON; no log identifier field is required for success. -/
theorem C2_success_iff (outcome : TransportOutcome) :
    (∃ body, makeLogApiCall outcome = .ok body) ↔
    ∃ statusCode body, outcome = .response statusCode (some body) ∧
      (statusCode = 200 ∨ statusCode = 201) := by
  cases outcome with
  | networkError => simp [makeLogApiCall]
  | timeout => simp [makeLogApiCall]
  | response statusCode parsed =>
    cases parsed with
    | none => simp [makeLogApiCall]
    | some body =>
      simp only [makeLogApiCall, TransportOutcome.response.injEq, Option.some.injEq]
      by_cases h : statusCode = 200 ∨ statusCode = 201
      · have hb : (statusCode == 200 || statusCode == 201) = true := by
          rcases h with h | h <;> simp [h]
        simp [hb]
        exact h
      · push_neg at h
        have hb : (statusCode == 200 || statusCode == 201) = false := by
          simp [h.1, h.2]
        simp [hb]
        exact h

/-- `jsFalsyOr` never produces 0 when its default is nonzero. -/
lemma jsFalsyOr_ne_zero (v : Option Nat) (d : Nat) (hd : d ≠ 0) :
    jsFalsyOr v d ≠ 0 := by
  cases v with
  | none => exact hd
  | some n =>
    simp only [jsFalsyOr]
    split
    · exact hd
    · assumption

/-- Claim C10: the constructor treats falsy configuration values as
absent — a configured 0 yields the defaults (timeout 5000, retries 3) just
as an absent value does, so no configuration produces a zero timeout or a
zero retry ceiling. -/
theorem C10_falsy_config_defaults :
    (∀ config : LoggerConfig,
      (Logger.make config).timeout ≠ 0 ∧ (Logger.make config).retries ≠ 0) ∧
    Logger.make ⟨some 0, some 0⟩ = ⟨5000, 3⟩ ∧
    Logger.make ⟨none, none⟩ = ⟨5000, 3⟩ := by
  refine ⟨?_, by decide, by decide⟩
  intro config
  exact ⟨jsFalsyOr_ne_zero _ _ (by decide), jsFalsyOr_ne_zero _ _ (by decide)⟩

/-- Claim C1 (code behaviour at the failing input): on an event with an
invalid stack and the default ceiling of 3, `#logWithRetry` catches the
validation error inside its retry loop and retries it — the trace shows no
POST but two backoff delays of 1000 ms and 2000 ms before the error is
rethrown, and `Log` then swallows it into `null`. This contradicts the
claim (and the comment in the source itself) that a validation failure returns
immediately with the attempt counter never incrementing and no backoff. -/
theorem C1_validation_retried :
    logWithRetry 3 (fun _ => some "tok") (fun _ _ => TransportOutcome.networkError)
        "server" "info" "config" "hello" 1 =
      ⟨.error (.validation .InvalidStack), [], [1000, 2000]⟩ ∧
    (Log 3 (fun _ => some "tok") (fun _ _ => TransportOutcome.networkError)
        "server" "info" "config" "hello").1 = none := by
  decide

/-- Claim C7: with valid stack, level and package, validation fails with
`InvalidMessage` exactly when the message is empty or whitespace-only or
longer than 48 characters; a non-whitespace message of length exactly 48
passes the whole check. -/
theorem C7_message_check (stack level packageName message : String)
    (hs : ALLOWED_STACKS.contains (jsToLowerCase stack) = true)
    (hl : ALLOWED_LEVELS.contains (jsToLowerCase level) = true)
    (hp : packageCheckPasses stack packageName = true) :
    (validateLogParams stack level packageName message =
        .error .InvalidMessage ↔
      (jsTrim message).length = 0 ∨ message.length > 48) ∧
    (message.length = 48 → (jsTrim message).length ≠ 0 →
      validateLogParams stack level packageName message = .ok ()) := by
  rw [packageCheckPasses, Bool.and_eq_true, Bool.not_eq_true', Bool.not_eq_true'] at hp
  obtain ⟨hp1, hp2⟩ := hp
  simp only [validateLogParams, hs, hl, hp1, hp2, Bool.not_true, Bool.not_false,
    Bool.false_eq_true, if_false, if_true]
  constructor
  · constructor
    · intro h
      by_cases h1 : (jsTrim message).length = 0
      · exact Or.inl h1
      · by_cases h2 : message.length > 48
        · exact Or.inr h2
        · rw [if_neg h1, if_neg h2] at h
          cases h
    · intro h
      by_cases h1 : (jsTrim message).length = 0
      · rw [if_pos h1]
      · rcases h with h | h2
        · exact absurd h h1
        · rw [if_neg h1, if_pos h2]
  · intro h48 hne
    rw [if_neg hne, if_neg (by omega : ¬(message.length > 48))]

/-- Claim C7 (witness): a 48-character non-whitespace message passes with
valid stack, level and package. -/
theorem C7_message_check_witness :
    validateLogParams "backend" "info" "auth"
      "aaaaaaaaaaaaaaaaaaaaaaaaaaaaaaaaaaaaaaaaaaaaaaaa" = .ok () :=
  (C7_message_check "backend" "info" "auth"
      "aaaaaaaaaaaaaaaaaaaaaaaaaaaaaaaaaaaaaaaaaaaaaaaa"
      (by decide) (by decide) (by decide)).2 (by decide) (by decide)

/-- The backend-only package set and the shared package set are disjoint. -/
lemma backend_not_common (s : String) (h : s ∈ ALLOWED_BACKEND_PACKAGES) :
    ALLOWED_COMMON_PACKAGES.contains s = false := by
  simp only [ALLOWED_BACKEND_PACKAGES, List.mem_cons, List.not_mem_nil,
    or_false] at h
  rcases h with rfl | rfl | rfl | rfl | rfl | rfl | rfl | rfl <;> decide

/-- Claim C8: on the frontend stack (matched case-insensitively, with a
valid level), every package from the backend-only set — in any casing — is
rejected with `InvalidPackage`, and the package gate passes exactly for the
shared package set. -/
theorem C8_frontend_packages (stack level packageName message : String)
    (hstack : jsToLowerCase stack = "frontend")
    (hl : ALLOWED_LEVELS.contains (jsToLowerCase level) = true) :
    (jsToLowerCase packageName ∈ ALLOWED_BACKEND_PACKAGES →
      validateLogParams stack level packageName message =
        .error .InvalidPackage) ∧
    (validateLogParams stack level packageName message =
        .error .InvalidPackage ↔
      ALLOWED_COMMON_PACKAGES.contains (jsToLowerCase packageName) = false) := by
  have hsc : ALLOWED_STACKS.contains (jsToLowerCase stack) = true := by
    rw [hstack]; decide
  have hback : (jsToLowerCase stack == "backend") = false := by
    rw [hstack]; decide
  have hfront : (jsToLowerCase stack == "frontend") = true := by
    rw [hstack]; decide
  have hsmem : jsToLowerCase stack ∈ ALLOWED_STACKS := by rw [hstack]; decide
  have hlmem : jsToLowerCase level ∈ ALLOWED_LEVELS := by simpa using hl
  cases hcp : ALLOWED_COMMON_PACKAGES.contains (jsToLowerCase packageName) with
  | false =>
    have hcpm : jsToLowerCase packageName ∉ ALLOWED_COMMON_PACKAGES := by
      simpa using hcp
    have heq : validateLogParams stack level packageName message =
        .error .InvalidPackage := by
      simp [validateLogParams, hsmem, hlmem, hback, hfront, hcpm]
    exact ⟨fun _ => heq, by rw [heq]; simp⟩
  | true =>
    have hnp : validateLogParams stack level packageName message ≠
        .error .InvalidPackage := by
      simp only [validateLogParams, hsc, hl, hback, hfront, hcp, Bool.not_true,
        Bool.not_false, Bool.false_and, Bool.and_false, Bool.true_and,
        Bool.false_eq_true, if_false, if_true]
      split_ifs <;> simp
    refine ⟨fun hmem => ?_, ?_⟩
    · rw [backend_not_common _ hmem] at hcp
      exact Bool.noConfusion hcp
    · exact ⟨fun h => absurd h hnp, fun h => Bool.noConfusion h⟩

/-- Claim C8 (witness): the backend-only package "Repository" (mixed case)
is rejected for the frontend stack with `InvalidPackage`. -/
theorem C8_frontend_packages_witness :
    validateLogParams "frontend" "error" "Repository" "boom" =
      .error .InvalidPackage :=
  (C8_frontend_packages "frontend" "error" "Repository" "boom"
    (by decide) (by decide)).1 (by decide)
